import Mathlib

/-!
Verification of the metric-derivation and table-selection layer of the
PhonePe dashboard repository.

The Python source is shallowly embedded as follows:

* strings are `String` / `List Char`; Python `str.replace`, `str.title`
  and the state-name lambdas are modelled character by character
  (the labels in this data set are ASCII, and Lean's `Char.toUpper`,
  `Char.toLower`, `Char.isAlpha` agree with Python's on ASCII);
* numeric (float) columns are modelled as `ℚ` and every aggregate
  (sum, mean, ratio) is exact rational arithmetic; the single use of a
  fractional power (the CAGR formula) is modelled over `ℝ` with `rpow`;
* a pandas DataFrame is a list of records; `groupby('year')` keys are
  the sorted distinct years (pandas sorts group keys ascending);
  `Series.unique()` is first-occurrence deduplication;
* the loader `load_data_cached` returns `pd.DataFrame()` (a frame with
  no columns at all) when the database raises, and a frame that has the
  table's columns (possibly zero rows) otherwise; this distinction is
  the `hasSchema` flag of `PandasFrame`, and a column access on a
  schema-less frame is a `KeyError`, modelled as `Except.error`.
-/

/-! ## Name normalizer (utils/config.py and the per-page lambdas) -/

/-- `x.replace('-', ' ')` on a list of characters. -/
def repHyphen (l : List Char) : List Char :=
  l.map (fun c => if c = '-' then ' ' else c)

/-- One pass of Python `str.title()`: a cased character is uppercased when
the previous character is not cased, lowercased otherwise.  The boolean
argument records whether the previous character was cased (ASCII alphabetic). -/
def titleAux : Bool → List Char → List Char
  | _, [] => []
  | prev, c :: t =>
    (if c.isAlpha then (if prev then c.toLower else c.toUpper) else c) :: titleAux c.isAlpha t

/-- Python `str.title()`. -/
def pyTitle (l : List Char) : List Char := titleAux false l

/-- `.replace(' And ', ' & ')`, the variant used by `standardize_state_name`
(utils/config.py line 314) and the Plotting / Mapping page lambdas.
Python `replace` substitutes non-overlapping occurrences left to right. -/
def repAnd : List Char → List Char
  | ' ' :: 'A' :: 'n' :: 'd' :: ' ' :: t => ' ' :: '&' :: ' ' :: repAnd t
  | c :: t => c :: repAnd t
  | [] => []

/-- `.replace(' And ', '& ')` — note the missing space before `&` — the
variant used by the loaders in utils/config.py (lines 116, 125, 134), by
pages/0_visual.py line 72 and by pages/5_Phone_Brands.py line 43. -/
def repAndLoader : List Char → List Char
  | ' ' :: 'A' :: 'n' :: 'd' :: ' ' :: t => '&' :: ' ' :: repAndLoader t
  | c :: t => c :: repAndLoader t
  | [] => []

/-- utils/config.py line 312-314:
`state.replace('-', ' ').title().replace(' And ', ' & ')`. -/
def standardize_state_name (s : String) : String :=
  String.mk (repAnd (pyTitle (repHyphen s.data)))

/-- The lambda at pages/1_Plotting.py line 113 (also pages/2_Mapping.py
line 112): `x.replace('-', ' ').title().replace(' And ', ' & ')`. -/
def plottingStateLambda (s : String) : String :=
  String.mk (repAnd (pyTitle (repHyphen s.data)))

/-- The lambda at utils/config.py line 116 (and its copies in
pages/0_visual.py line 72, pages/5_Phone_Brands.py line 43):
`x.replace('-', ' ').title().replace(' And ', '& ')`. -/
def loaderStateLambda (s : String) : String :=
  String.mk (repAndLoader (pyTitle (repHyphen s.data)))

/-- Occurrence test for the substring `" And "`. -/
def hasAndSub : List Char → Bool
  | [] => false
  | c :: t => ([' ', 'A', 'n', 'd', ' ']).isPrefixOf (c :: t) || hasAndSub t

/-! ## Formatter (utils/config.py lines 153-193 and the page-local
variants in pages/0_visual.py lines 113-131)

Python's fixed-point rendering `f-string :.Nf` rounds half to even on the
decimal value; `:,` groups the integer part in threes with commas. -/

/-- Round half to even, as Python's fixed-point formatting does. -/
def roundHalfEven (q : ℚ) : ℤ :=
  let f := ⌊q⌋
  let r := q - (f : ℚ)
  if r < 1/2 then f
  else if 1/2 < r then f + 1
  else if f % 2 = 0 then f else f + 1

/-- Decimal digits of a natural number, most significant first. -/
def natDigits (n : ℕ) : List Char := Nat.toDigits 10 n

/-- Insert a comma after every three characters of the reversed digit list. -/
def group3Aux : List Char → List Char
  | a :: b :: c :: d :: t => a :: b :: c :: ',' :: group3Aux (d :: t)
  | l => l

/-- Group digits in threes with commas, Python `:,` style. -/
def group3 (ds : List Char) : List Char := (group3Aux ds.reverse).reverse

/-- Left-pad a digit list with zeros to length `k`. -/
def padZeros (k : ℕ) (ds : List Char) : List Char :=
  List.replicate (k - ds.length) '0' ++ ds

/-- Python `f-string` fixed-point rendering of `x` with `prec` decimal
places, with thousands separators on the integer part when `grouped`. -/
def qRender (grouped : Bool) (prec : ℕ) (x : ℚ) : String :=
  let sign := if x < 0 then "-" else ""
  let n := (roundHalfEven (|x| * (10 : ℚ) ^ prec)).toNat
  let ip := n / 10 ^ prec
  let fp := n % 10 ^ prec
  let ipStr := String.mk (if grouped then group3 (natDigits ip) else natDigits ip)
  if prec = 0 then sign ++ ipStr
  else sign ++ ipStr ++ "." ++ String.mk (padZeros prec (natDigits fp))

/-- utils/config.py lines 153-173, `format_currency`.  The
`use_indian_system` parameter defaults to `True` in the source; the
default is passed explicitly at call sites here. -/
def format_currency (value : ℚ) (use_indian_system : Bool) : String :=
  if value ≥ 1000000000 then
    if use_indian_system = false then "₹" ++ qRender false 2 (value / 1000000000) ++ "B"
    else "₹" ++ qRender false 2 (value / 10000000) ++ "Cr"
  else if value ≥ 10000000 then "₹" ++ qRender false 2 (value / 10000000) ++ "Cr"
  else if value ≥ 100000 then "₹" ++ qRender false 2 (value / 100000) ++ "L"
  else if value ≥ 1000 then "₹" ++ qRender false 2 (value / 1000) ++ "K"
  else "₹" ++ qRender true 2 value

/-- utils/config.py lines 176-187, `format_number`. -/
def format_number (value : ℚ) : String :=
  if value ≥ 1000000000 then qRender false 2 (value / 1000000000) ++ "B"
  else if value ≥ 10000000 then qRender false 2 (value / 10000000) ++ "Cr"
  else if value ≥ 100000 then qRender false 2 (value / 100000) ++ "L"
  else if value ≥ 1000 then qRender false 2 (value / 1000) ++ "K"
  else qRender true 0 value

/-- pages/0_visual.py lines 113-121: the page-local `format_currency`
variant, which has no 1e3/K band. -/
def visualFormatCurrency (value : ℚ) : String :=
  if value ≥ 1000000000 then "₹" ++ qRender false 2 (value / 1000000000) ++ "B"
  else if value ≥ 10000000 then "₹" ++ qRender false 2 (value / 10000000) ++ "Cr"
  else if value ≥ 100000 then "₹" ++ qRender false 2 (value / 100000) ++ "L"
  else "₹" ++ qRender true 2 value

/-- pages/0_visual.py lines 123-131: the page-local `format_number`
variant, which has no 1e3/K band. -/
def visualFormatNumber (value : ℚ) : String :=
  if value ≥ 1000000000 then qRender false 2 (value / 1000000000) ++ "B"
  else if value ≥ 10000000 then qRender false 2 (value / 10000000) ++ "Cr"
  else if value ≥ 100000 then qRender false 2 (value / 100000) ++ "L"
  else qRender true 0 value

/-! ## Data model -/

/-- One row of a state-level aggregated table as used by pages/0_visual.py
(`aggregated_insurence_state`): `state, year, quarter, total_amount,
number_of_transactions`. -/
structure IRow where
  state : String
  year : ℤ
  quarter : ℤ
  total_amount : ℚ
  number_of_transactions : ℚ
deriving DecidableEq, Repr

/-- One row of the state-level transaction table as filtered by
pages/1_Plotting.py: it additionally carries `type_of_transaction`. -/
structure PRow where
  state : String
  year : ℤ
  quarter : ℤ
  type_of_transaction : String
  total_amount : ℚ
  number_of_transactions : ℚ
deriving DecidableEq, Repr

/-- One row of the phone-brand table used by pages/5_Phone_Brands.py. -/
structure BRow where
  state : String
  year : ℤ
  quarter : ℤ
  phone_brand : String
  registered_users : ℚ
  phone_count : ℚ
deriving DecidableEq, Repr

/-- Result of `load_data_cached`: on any database error the loader
returns `pd.DataFrame()`, a frame that has no columns at all
(`hasSchema = false`); otherwise the frame has the table's columns and
possibly zero rows. -/
structure PandasFrame where
  hasSchema : Bool
  rows : List IRow
deriving DecidableEq, Repr

/-! ## Series.unique, sorted group keys, Python max -/

/-- First-occurrence deduplication with explicit fuel (pandas
`Series.unique()` keeps the first occurrence of each value). -/
def uniqueFirstAux : ℕ → List ℤ → List ℤ
  | _, [] => []
  | 0, l => l
  | n + 1, a :: t => a :: uniqueFirstAux n (t.filter (fun x => x ≠ a))

/-- pandas `Series.unique()` for an integer column. -/
def uniqueFirst (l : List ℤ) : List ℤ := uniqueFirstAux l.length l

/-- String variant of `uniqueFirstAux`. -/
def uniqueFirstSAux : ℕ → List String → List String
  | _, [] => []
  | 0, l => l
  | n + 1, a :: t => a :: uniqueFirstSAux n (t.filter (fun x => x ≠ a))

/-- pandas `Series.unique()` for a string column. -/
def uniqueFirstS (l : List String) : List String := uniqueFirstSAux l.length l

/-- `sorted(series.unique())`, and also the group keys of
`groupby('year')` (pandas sorts group keys ascending). -/
def sortedUnique (l : List ℤ) : List ℤ :=
  List.insertionSort (· ≤ ·) (uniqueFirst l)

/-- Python `max(iterable)` (total here; the pages only call it on
non-empty columns because they stop on an empty frame first). -/
def pythonMax (l : List ℤ) : ℤ := l.foldl max (l.headD 0)

/-! ## Metric engine (pages/0_visual.py lines 82-110 and 253-266) -/

/-- Distinct years of the table, ascending: the index of
`df.groupby('year')['total_amount'].sum()`. -/
def distinctYears (rows : List IRow) : List ℤ :=
  sortedUnique (rows.map (fun r => r.year))

/-- Sum of `total_amount` over the rows of one year: one entry of
`df.groupby('year')['total_amount'].sum()`. -/
def yearTotal (rows : List IRow) (y : ℤ) : ℚ :=
  ((rows.filter (fun r => r.year = y)).map (fun r => r.total_amount)).sum

/-- pages/0_visual.py lines 86-93: year-over-year growth of the yearly
`total_amount` sums.  `iloc[-1]` and `iloc[-2]` of the sorted yearly
series are the entries at positions `n-1` and `n-2`. -/
def yoy_growth (rows : List IRow) : ℚ :=
  let ys := distinctYears rows
  if 2 ≤ ys.length then
    let latest := yearTotal rows (ys.getD (ys.length - 1) 0)
    let previous := yearTotal rows (ys.getD (ys.length - 2) 0)
    if 0 < previous then (latest - previous) / previous * 100 else 0
  else 0

/-- pages/0_visual.py lines 253-258: compound annual growth rate of the
yearly `total_amount` sums.  The float power is modelled with `Real.rpow`;
note the source checks only `len(yearly_trend) >= 2` — there is no
positivity check on the first year's aggregate. -/
noncomputable def amount_cagr (rows : List IRow) : ℝ :=
  let ys := distinctYears rows
  if 2 ≤ ys.length then
    ((((yearTotal rows (ys.getD (ys.length - 1) 0) : ℚ) : ℝ) /
        ((yearTotal rows (ys.getD 0 0) : ℚ) : ℝ)) ^
      ((1 : ℝ) / ((ys.length : ℝ) - 1)) - 1) * 100
  else 0

/-- Sum of `total_amount` over the rows of one state. -/
def stateTotal (rows : List IRow) (s : String) : ℚ :=
  ((rows.filter (fun r => r.state = s)).map (fun r => r.total_amount)).sum

/-- `Series.idxmax()` over keys listed in order: the first key attaining
the maximum value. -/
def idxmaxBy (keys : List String) (f : String → ℚ) : Option String :=
  keys.foldl
    (fun acc k =>
      match acc with
      | none => some k
      | some b => if f b < f k then some k else acc)
    none

/-- pages/0_visual.py lines 96-97: `state_totals.idxmax() if
len(state_totals) > 0 else "N/A"`.  The groupby keys are the distinct
states in sorted order. -/
def top_state (rows : List IRow) : String :=
  let keys := List.insertionSort (fun a b => a ≤ b) (uniqueFirstS (rows.map (fun r => r.state)))
  match idxmaxBy keys (stateTotal rows) with
  | some s => s
  | none => "N/A"

/-- The KPI bundle computed by pages/0_visual.py lines 82-110 / 253-258. -/
structure VisualKpis where
  total_amount : ℚ
  total_transactions : ℚ
  avg_transaction_value : ℚ
  yoy : ℚ
  topState : String
  cagr : ℝ

/-- pages/0_visual.py lines 68-110 and 253-258 as one pipeline.  Line 72
evaluates `df['state']` before anything else; on the schema-less empty
frame the loader returns after a database error, this raises `KeyError`,
modelled as `Except.error`.  On a frame that has its columns the page
computes the KPI bundle (all aggregates of an empty row list degrade to
their neutral values). -/
noncomputable def visualPipeline (f : PandasFrame) : Except String VisualKpis :=
  if f.hasSchema = false then Except.error "KeyError: state"
  else
    let rows := f.rows.map (fun r => { r with state := loaderStateLambda r.state })
    let total := (rows.map (fun r => r.total_amount)).sum
    let txns := (rows.map (fun r => r.number_of_transactions)).sum
    Except.ok
      { total_amount := total
        total_transactions := txns
        avg_transaction_value := if 0 < txns then total / txns else 0
        yoy := yoy_growth rows
        topState := top_state rows
        cagr := amount_cagr rows }

/-! ## Filter engine (pages/1_Plotting.py lines 117-160, pages/2_Mapping.py
lines 143-151, pages/5_Phone_Brands.py lines 81-87,
pages/6_District_Drill.py lines 138-141) -/

/-- The user's multiselect values on the Plotting page: year, quarter,
state and transaction-type selections. -/
structure FilterSel where
  years : List ℤ
  quarters : List ℤ
  states : List String
  ttypes : List String
deriving DecidableEq, Repr

/-- pages/1_Plotting.py lines 138-160 for a state-level transaction
table: the year and quarter `isin` filters are applied unconditionally;
the state and type filters are applied only when the corresponding
selection is non-empty (`if selected_states:`). -/
def plottingFilter (df : List PRow) (sel : FilterSel) : List PRow :=
  let d1 := df.filter (fun r => r.year ∈ sel.years ∧ r.quarter ∈ sel.quarters)
  let d2 := if sel.states.isEmpty then d1
    else d1.filter (fun r => r.state ∈ sel.states)
  if sel.ttypes.isEmpty then d2
  else d2.filter (fun r => r.type_of_transaction ∈ sel.ttypes)

/-- The Filter Engine contract as worded in the spec (section 4.3), for
comparison with `plottingFilter`: every dimension with a non-empty
allowed-value set constrains rows; a dimension mapped to an empty set
constrains nothing. -/
def specFilterApply (df : List PRow) (sel : FilterSel) : List PRow :=
  df.filter (fun r =>
    (sel.years ≠ [] → r.year ∈ sel.years) ∧
    (sel.quarters ≠ [] → r.quarter ∈ sel.quarters) ∧
    (sel.states ≠ [] → r.state ∈ sel.states) ∧
    (sel.ttypes ≠ [] → r.type_of_transaction ∈ sel.ttypes))

/-! ## Table resolver (pages/1_Plotting.py lines 42-52 and 98-109) -/

/-- pages/1_Plotting.py lines 42-52: `tables.get(selected_tab, None)`. -/
def select_the_table (t : String) : Option String :=
  if t = "Transaction Data" then some "agregated_transaction_country"
  else if t = "Transaction State" then some "aggregated_transaction_state"
  else if t = "Insurance Data" then some "aggregated_insurence_country"
  else if t = "Insurance State" then some "aggregated_insurence_state"
  else if t = "User Data" then some "aggregated_user_counry"
  else if t = "User State" then some "agregated_user_state"
  else none

/-- The six registered category strings of `select_the_table`. -/
def plottingCategories : List String :=
  ["Transaction Data", "Transaction State", "Insurance Data",
   "Insurance State", "User Data", "User State"]

/-- pages/1_Plotting.py lines 98-105: queries issued for a selected tab.
When `select_the_table` returns `None` the page calls `st.stop()` before
`load_data_from_db`, so no query is issued. -/
def plottingLoadQueries (tab : String) : List String :=
  match select_the_table tab with
  | none => []
  | some t => ["SELECT * FROM " ++ t]

/-! ## Default filter selections (pages/1_Plotting.py lines 123-135,
pages/2_Mapping.py lines 120-140, pages/5_Phone_Brands.py lines 59-78,
pages/6_District_Drill.py lines 115-127) -/

/-- Plotting page default year selection: `[max(df['year'].unique())]`. -/
def plottingDefaultYears (df : List PRow) : List ℤ :=
  [pythonMax (uniqueFirst (df.map (fun r => r.year)))]

/-- Plotting page default quarter selection:
`list(df['quarter'].unique())`. -/
def plottingDefaultQuarters (df : List PRow) : List ℤ :=
  uniqueFirst (df.map (fun r => r.quarter))

/-- Plotting page default state selection: `default=[]`. -/
def plottingDefaultStates (_ : List PRow) : List String := []

/-- Mapping page default year selection (pages/2_Mapping.py line 124),
same shape as the Plotting page. -/
def mappingDefaultYears (df : List IRow) : List ℤ :=
  [pythonMax (uniqueFirst (df.map (fun r => r.year)))]

/-- District page default year selection (pages/6_District_Drill.py line
119): `[max(df['year'].unique())] if len(df['year'].unique()) > 0 else []`. -/
def districtDefaultYears (years : List ℤ) : List ℤ :=
  if 0 < (uniqueFirst years).length then [pythonMax (uniqueFirst years)] else []

/-- Phone-brand page default year selection (pages/5_Phone_Brands.py line
63): `sorted(df['year'].unique())[-2:] if len(df['year'].unique()) >= 2
else list(df['year'].unique())` — the two most recent years. -/
def phoneBrandsDefaultYears (df : List BRow) : List ℤ :=
  if 2 ≤ (uniqueFirst (df.map (fun r => r.year))).length then
    (List.insertionSort (· ≤ ·) (uniqueFirst (df.map (fun r => r.year)))).drop
      ((List.insertionSort (· ≤ ·) (uniqueFirst (df.map (fun r => r.year)))).length - 2)
  else uniqueFirst (df.map (fun r => r.year))

/-- Phone-brand page default quarter selection (line 70). -/
def phoneBrandsDefaultQuarters (df : List BRow) : List ℤ :=
  uniqueFirst (df.map (fun r => r.quarter))

/-- Phone-brand page default state selection (line 77): `default=[]`. -/
def phoneBrandsDefaultStates (_ : List BRow) : List String := []

/-- Mapping page default quarter selection (pages/2_Mapping.py line 131):
`list(df['quarter'].unique())`. -/
def mappingDefaultQuarters (df : List IRow) : List ℤ :=
  uniqueFirst (df.map (fun r => r.quarter))

/-- Mapping page default state selection (line 139): `default=[]`. -/
def mappingDefaultStates (_ : List IRow) : List String := []

/-- pages/2_Mapping.py lines 143-149: the year and quarter `isin` filters
are applied unconditionally, the state `isin` filter only when the state
selection is non-empty (`if selected_states:`). -/
def mappingFilter (df : List IRow) (years quarters : List ℤ) (states : List String) :
    List IRow :=
  let d1 := df.filter (fun r => r.year ∈ years ∧ r.quarter ∈ quarters)
  if states.isEmpty then d1 else d1.filter (fun r => r.state ∈ states)

/-- One row of the district-level top tables (`top_transaction_state`,
`top_insurance_state`, `top_user_state`) used by
pages/6_District_Drill.py: `state, year, quarter, entity_type,
entity_name, amount, count`. -/
structure DRow where
  state : String
  year : ℤ
  quarter : ℤ
  entity_type : String
  entity_name : String
  amount : ℚ
  count : ℚ
deriving DecidableEq, Repr

/-- District page default quarter selection (pages/6_District_Drill.py
line 126): `list(df['quarter'].unique())`. -/
def districtDefaultQuarters (df : List DRow) : List ℤ :=
  uniqueFirst (df.map (fun r => r.quarter))

/-- District page default state selection (lines 110-113): the selectbox
options are `["All States"] + sorted(states)` and a selectbox defaults to
its first option. -/
def districtDefaultState (_ : List DRow) : String := "All States"

/-- District page default entity-type selection (lines 130-135): the
selectbox options are `df['entity_type'].unique().tolist()` and
`index=0` selects the first option; a selectbox over an empty option
list yields `None`, modelled as `none`. -/
def districtDefaultEntity (df : List DRow) : Option String :=
  (uniqueFirstS (df.map (fun r => r.entity_type))).head?

/-- pages/6_District_Drill.py lines 137-147: the year and quarter `isin`
filters are applied unconditionally; the state equality filter only when
the selection differs from `"All States"`; the entity-type equality
filter unconditionally (the column is present in these tables).  A
`none` entity selection matches no row, as pandas `== None` does. -/
def districtFilter (df : List DRow) (years quarters : List ℤ)
    (selState : String) (selEntity : Option String) : List DRow :=
  let d1 := df.filter (fun r => r.year ∈ years ∧ r.quarter ∈ quarters)
  let d2 := if selState ≠ "All States" then d1.filter (fun r => r.state = selState) else d1
  d2.filter (fun r => some r.entity_type = selEntity)

/-! ## Character-level facts about `Char.toLower`, `Char.toUpper`,
`Char.isAlpha` (ASCII) -/

theorem char_toNat_ofNat_valid (n : ℕ) (h : n < 55296) : (Char.ofNat n).toNat = n := by
  rw [Char.ofNat, dif_pos (Or.inl h)]
  rfl

theorem char_toNat_toLower (c : Char) :
    (Char.toLower c).toNat = if 65 ≤ c.toNat ∧ c.toNat ≤ 90 then c.toNat + 32 else c.toNat := by
  simp only [Char.toLower]
  by_cases h : 65 ≤ c.toNat ∧ c.toNat ≤ 90
  · rw [if_pos (by omega : c.toNat ≥ 65 ∧ c.toNat ≤ 90), if_pos h,
      char_toNat_ofNat_valid _ (by omega)]
  · rw [if_neg (by omega : ¬(c.toNat ≥ 65 ∧ c.toNat ≤ 90)), if_neg h]

theorem char_toNat_toUpper (c : Char) :
    (Char.toUpper c).toNat = if 97 ≤ c.toNat ∧ c.toNat ≤ 122 then c.toNat - 32 else c.toNat := by
  simp only [Char.toUpper]
  by_cases h : 97 ≤ c.toNat ∧ c.toNat ≤ 122
  · rw [if_pos (by omega : c.toNat ≥ 97 ∧ c.toNat ≤ 122), if_pos h,
      char_toNat_ofNat_valid _ (by omega)]
  · rw [if_neg (by omega : ¬(c.toNat ≥ 97 ∧ c.toNat ≤ 122)), if_neg h]

theorem char_eq_iff_toNat (c d : Char) : c = d ↔ c.toNat = d.toNat :=
  ⟨fun h => h ▸ rfl, fun h => Char.ext (UInt32.ext h)⟩

theorem char_isAlpha_eq (c : Char) :
    c.isAlpha = decide ((65 ≤ c.toNat ∧ c.toNat ≤ 90) ∨ (97 ≤ c.toNat ∧ c.toNat ≤ 122)) := by
  rw [Bool.eq_iff_iff]
  simp [Char.isAlpha, Char.isUpper, Char.isLower]
  tauto

theorem char_toLower_toLower (c : Char) : c.toLower.toLower = c.toLower := by
  rw [char_eq_iff_toNat]
  simp only [char_toNat_toLower]
  split_ifs <;> omega

theorem char_toUpper_toUpper (c : Char) : c.toUpper.toUpper = c.toUpper := by
  rw [char_eq_iff_toNat]
  simp only [char_toNat_toUpper]
  split_ifs <;> omega

theorem char_isAlpha_toLower (c : Char) : c.toLower.isAlpha = c.isAlpha := by
  rw [char_isAlpha_eq, char_isAlpha_eq, char_toNat_toLower, decide_eq_decide]
  split_ifs <;> omega

theorem char_isAlpha_toUpper (c : Char) : c.toUpper.isAlpha = c.isAlpha := by
  rw [char_isAlpha_eq, char_isAlpha_eq, char_toNat_toUpper, decide_eq_decide]
  split_ifs <;> omega

theorem char_toLower_ne_hyphen (c : Char) (h : c ≠ '-') : c.toLower ≠ '-' := by
  intro hc
  apply h
  rw [char_eq_iff_toNat] at hc ⊢
  rw [char_toNat_toLower] at hc
  have e : ('-' : Char).toNat = 45 := rfl
  rw [e] at hc ⊢
  split_ifs at hc <;> omega

theorem char_toUpper_ne_hyphen (c : Char) (h : c ≠ '-') : c.toUpper ≠ '-' := by
  intro hc
  apply h
  rw [char_eq_iff_toNat] at hc ⊢
  rw [char_toNat_toUpper] at hc
  have e : ('-' : Char).toNat = 45 := rfl
  rw [e] at hc ⊢
  split_ifs at hc <;> omega

/-! ## Structure of `repAnd`, `titleAux`, `repHyphen` -/

theorem repAnd_of_not_hasAndSub (l : List Char) (h : hasAndSub l = false) : repAnd l = l := by
  induction l using repAnd.induct with
  | case1 t ih =>
    exfalso
    simp [hasAndSub, List.isPrefixOf] at h
  | case2 c t hne ih =>
    rw [hasAndSub, Bool.or_eq_false_iff] at h
    simp only [repAnd]
    · rw [ih h.2]
  | case3 => rfl

theorem titleAux_titleAux (l : List Char) : ∀ b, titleAux b (titleAux b l) = titleAux b l := by
  induction l with
  | nil => intro b; rfl
  | cons c t ih =>
    intro b
    by_cases hc : c.isAlpha = true
    · cases b
      · simp only [titleAux, hc, if_true, Bool.false_eq_true, if_false,
          char_isAlpha_toUpper, char_toUpper_toUpper, List.cons.injEq, true_and]
        exact ih true
      · simp only [titleAux, hc, if_true,
          char_isAlpha_toLower, char_toLower_toLower, List.cons.injEq, true_and]
        exact ih true
    · rw [Bool.not_eq_true] at hc
      simp only [titleAux, hc, Bool.false_eq_true, if_false, List.cons.injEq, true_and]
      exact ih false

theorem titleAux_repAnd (l : List Char) :
    ∀ b, titleAux b l = l → titleAux b (repAnd l) = repAnd l := by
  induction l using repAnd.induct with
  | case1 t ih =>
    intro b h
    have hsp : (' ' : Char).isAlpha = false := by decide
    have hamp : ('&' : Char).isAlpha = false := by decide
    have hA : ('A' : Char).isAlpha = true := by decide
    have hn : ('n' : Char).isAlpha = true := by decide
    have hd : ('d' : Char).isAlpha = true := by decide
    have hAu : ('A' : Char).toUpper = 'A' := by decide
    have hnl : ('n' : Char).toLower = 'n' := by decide
    have hdl : ('d' : Char).toLower = 'd' := by decide
    simp only [titleAux, hsp, hA, hn, hd, hAu, hnl, hdl, Bool.false_eq_true, if_false,
      if_true, List.cons.injEq, true_and] at h
    simp only [repAnd, titleAux, hsp, hamp, Bool.false_eq_true, if_false,
      List.cons.injEq, true_and]
    exact ih false h
  | case2 c t hne ih =>
    intro b h
    simp only [titleAux, List.cons.injEq] at h
    simp only [repAnd, titleAux, List.cons.injEq]
    exact ⟨h.1, ih c.isAlpha h.2⟩
  | case3 =>
    intro b _
    rfl

theorem mem_repAnd (l : List Char) (x : Char) (hx : x ∈ repAnd l) :
    x ∈ l ∨ x = ' ' ∨ x = '&' := by
  induction l using repAnd.induct with
  | case1 t ih =>
    simp only [repAnd, List.mem_cons] at hx
    rcases hx with h | h | h | h
    · exact Or.inr (Or.inl h)
    · exact Or.inr (Or.inr h)
    · exact Or.inr (Or.inl h)
    · rcases ih h with h' | h'
      · exact Or.inl (by simp [h'])
      · exact Or.inr h'
  | case2 c t hne ih =>
    simp only [repAnd, List.mem_cons] at hx
    rcases hx with h | h
    · exact Or.inl (by simp [h])
    · rcases ih h with h' | h'
      · exact Or.inl (by simp [h'])
      · exact Or.inr h'
  | case3 => simp [repAnd] at hx

theorem titleAux_not_hyphen (l : List Char) (hl : ('-' : Char) ∉ l) :
    ∀ b, ('-' : Char) ∉ titleAux b l := by
  induction l with
  | nil => intro b h; simp [titleAux] at h
  | cons c t ih =>
    intro b h
    simp only [List.mem_cons, not_or] at hl
    simp only [titleAux, List.mem_cons] at h
    rcases h with h | h
    · by_cases hc : c.isAlpha = true
      · rw [if_pos hc] at h
        cases b
      
        · exact char_toUpper_ne_hyphen c (fun e => hl.1 e.symm) (by simpa using h.symm)
        · exact char_toLower_ne_hyphen c (fun e => hl.1 e.symm) (by simpa using h.symm)
      · rw [Bool.not_eq_true] at hc
        rw [if_neg (by simp [hc])] at h
        exact hl.1 h
    · exact ih hl.2 c.isAlpha h

theorem repHyphen_not_hyphen (l : List Char) : ('-' : Char) ∉ repHyphen l := by
  intro h
  simp only [repHyphen, List.mem_map] at h
  rcases h with ⟨c, _, hc⟩
  by_cases e : c = '-'
  · rw [if_pos e] at hc
    exact absurd hc (by decide)
  · rw [if_neg e] at hc
    exact e (hc ▸ rfl)

theorem repHyphen_of_not_hyphen (l : List Char) (hl : ('-' : Char) ∉ l) :
    repHyphen l = l := by
  induction l with
  | nil => rfl
  | cons c t ih =>
    simp only [List.mem_cons, not_or] at hl
    simp only [repHyphen, List.map_cons]
    rw [if_neg (fun e => hl.1 e.symm)]
    have := ih hl.2
    simp only [repHyphen] at this
    rw [this]

/-! ## Claim C5 — idempotence of the state-name normalizer -/

/-- C5 counterexample: `standardize_state_name` is not idempotent on all
inputs.  On `"a and and b"` one application gives `"A & And B"` (the two
`" And "` occurrences overlap, so Python's `replace` rewrites only the
first), and a second application gives `"A & & B"`. -/
theorem C5_counterexample :
    standardize_state_name (standardize_state_name "a and and b") ≠
      standardize_state_name "a and and b" ∧
    standardize_state_name "a and and b" = "A & And B" ∧
    standardize_state_name (standardize_state_name "a and and b") = "A & & B" := by
  refine ⟨?_, by decide, by decide⟩
  decide

/-- C5 (amended): `standardize_state_name` is idempotent on every label
whose normalized form contains no residual `" And "` substring; on labels
whose title-cased form contains overlapping `" And "` occurrences (such as
`"a and and b"`) a second application differs from the first. -/
theorem C5_normalize_idempotent_amended (s : String)
    (h : hasAndSub (standardize_state_name s).data = false) :
    standardize_state_name (standardize_state_name s) = standardize_state_name s := by
  have h' : hasAndSub (repAnd (titleAux false (repHyphen s.data))) = false := h
  have h1 : ('-' : Char) ∉ titleAux false (repHyphen s.data) :=
    titleAux_not_hyphen _ (repHyphen_not_hyphen s.data) false
  have h2 : ('-' : Char) ∉ repAnd (titleAux false (repHyphen s.data)) := by
    intro hm
    rcases mem_repAnd _ '-' hm with hm' | hm' | hm'
    · exact h1 hm'
    · exact absurd hm' (by decide)
    · exact absurd hm' (by decide)
  show String.mk (repAnd (titleAux false (repHyphen
      (repAnd (titleAux false (repHyphen s.data)))))) =
    String.mk (repAnd (titleAux false (repHyphen s.data)))
  rw [repHyphen_of_not_hyphen _ h2,
    titleAux_repAnd (titleAux false (repHyphen s.data)) false
      (titleAux_titleAux (repHyphen s.data) false),
    repAnd_of_not_hasAndSub _ h']

/-- C5 witness: the amended idempotence theorem applied to the concrete
label `"west-bengal"`. -/
theorem C5_witness :
    standardize_state_name (standardize_state_name "west-bengal") =
      standardize_state_name "west-bengal" :=
  C5_normalize_idempotent_amended "west-bengal" (by decide)

/-! ## Claim C8 — agreement of the normalizer implementation sites -/

/-- C8 counterexample: the loader lambda (which replaces `" And "` by
`"& "` without the space before the ampersand) disagrees with
`standardize_state_name` on `"andaman-and-nicobar-islands"`. -/
theorem C8_counterexample :
    loaderStateLambda "andaman-and-nicobar-islands" ≠
      standardize_state_name "andaman-and-nicobar-islands" ∧
    loaderStateLambda "andaman-and-nicobar-islands" = "Andaman& Nicobar Islands" := by
  exact ⟨by decide, by decide⟩

/-- C8 (amended): `standardize_state_name` and the Plotting/Mapping page
lambda both perform hyphen-to-space replacement, title-casing, then
replacement of `" And "` by `" & "`, and agree on every input — mapping
`"andaman-and-nicobar-islands"` to `"Andaman & Nicobar Islands"` — but
the loader lambdas in utils/config.py, pages/0_visual.py and
pages/5_Phone_Brands.py replace `" And "` by `"& "` (no space before the
ampersand) and therefore produce `"Andaman& Nicobar Islands"` on the same
input: the implementation sites do not all agree. -/
theorem C8_normalizer_sites_amended :
    (∀ s : String, plottingStateLambda s = standardize_state_name s) ∧
    standardize_state_name "andaman-and-nicobar-islands" = "Andaman & Nicobar Islands" ∧
    loaderStateLambda "andaman-and-nicobar-islands" = "Andaman& Nicobar Islands" :=
  ⟨fun _ => rfl, by decide, by decide⟩

/-! ## Claim C1 — the filter engine -/

/-- A one-row table and a selection whose year set is empty, used to
refute the unconstrained-empty-selection reading of the filter. -/
def c1Row : PRow :=
  { state := "Kerala", year := 2022, quarter := 1,
    type_of_transaction := "Peer-to-peer payments",
    total_amount := 100, number_of_transactions := 10 }

/-- The one-row table for the C1 counterexample. -/
def c1Df : List PRow := [c1Row]

/-- A selection with an empty year set and quarter 1 selected. -/
def c1Sel : FilterSel :=
  { years := [], quarters := [1], states := [], ttypes := [] }

/-- C1 counterexample: with an empty year selection the page's filter
drops every row (`isin([])` never holds), while the spec's filter - under
which an empty set constrains nothing - keeps the table unchanged. -/
theorem C1_counterexample :
    plottingFilter c1Df c1Sel = [] ∧ specFilterApply c1Df c1Sel = c1Df ∧ c1Df ≠ [] :=
  ⟨by decide, by decide, by decide⟩

/-- C1 (amended): the filtered table is always a sublist of the input,
and a row is retained exactly when its year and quarter are members of
the respective selections (unconditionally - so an empty year or quarter
selection excludes every row) and, for the state and transaction-type
dimensions only, the selection is empty or contains the row's value. -/
theorem C1_filter_amended (df : List PRow) (sel : FilterSel) :
    List.Sublist (plottingFilter df sel) df ∧
    (∀ r : PRow, r ∈ plottingFilter df sel ↔
      r ∈ df ∧ r.year ∈ sel.years ∧ r.quarter ∈ sel.quarters ∧
      (sel.states ≠ [] → r.state ∈ sel.states) ∧
      (sel.ttypes ≠ [] → r.type_of_transaction ∈ sel.ttypes)) := by
  unfold plottingFilter
  by_cases h1 : sel.states.isEmpty = true <;> by_cases h2 : sel.ttypes.isEmpty = true <;>
    rw [List.isEmpty_iff] at h1 h2 <;>
    simp only [h1, h2, List.isEmpty_iff, if_true, if_false, ne_eq, not_true_eq_false,
      false_implies, true_and, and_true] <;>
    refine ⟨?_, fun r => ?_⟩ <;>
    first
      | exact List.filter_sublist df
      | exact (List.filter_sublist _).trans (List.filter_sublist df)
      | exact ((List.filter_sublist _).trans (List.filter_sublist _)).trans
          (List.filter_sublist df)
      | (simp only [List.mem_filter, decide_eq_true_eq, not_false_eq_true, true_implies] <;>
         tauto)

/-! ## Claim C6 — the table resolver -/

/-- C6: a category string outside the resolver's six-entry lookup table
resolves to `none`, and the Plotting page issues no query for it
(`st.stop()` runs before `load_data_from_db`). -/
theorem C6_resolver_not_found (s : String) (h : s ∉ plottingCategories) :
    select_the_table s = none ∧ plottingLoadQueries s = [] := by
  simp only [plottingCategories, List.mem_cons, List.not_mem_nil, or_false, not_or] at h
  obtain ⟨h1, h2, h3, h4, h5, h6⟩ := h
  have hn : select_the_table s = none := by
    rw [select_the_table, if_neg h1, if_neg h2, if_neg h3, if_neg h4, if_neg h5, if_neg h6]
  exact ⟨hn, by rw [plottingLoadQueries, hn]⟩

/-- C6 witness: the unregistered category `"Loan Data"` resolves to
`none` and leads to no query. -/
theorem C6_witness :
    select_the_table "Loan Data" = none ∧ plottingLoadQueries "Loan Data" = [] :=
  C6_resolver_not_found "Loan Data" (by decide)

/-! ## List helpers: `unique`, `max`, positional indexing -/

theorem mem_uniqueFirstAux (n : ℕ) :
    ∀ l : List ℤ, l.length ≤ n → ∀ x, x ∈ uniqueFirstAux n l ↔ x ∈ l := by
  induction n with
  | zero =>
    intro l h x
    cases l with
    | nil => simp [uniqueFirstAux]
    | cons a t => simp at h
  | succ n ih =>
    intro l h x
    cases l with
    | nil => simp [uniqueFirstAux]
    | cons a t =>
      simp only [uniqueFirstAux, List.mem_cons]
      rw [ih _ (le_trans (List.length_filter_le _ _) (by simpa using h)) x]
      by_cases e : x = a
      · simp [e]
      · simp [List.mem_filter, e]

theorem mem_uniqueFirst (l : List ℤ) (x : ℤ) : x ∈ uniqueFirst l ↔ x ∈ l :=
  mem_uniqueFirstAux l.length l le_rfl x

theorem foldl_max_le (l : List ℤ) : ∀ a, a ≤ l.foldl max a ∧ ∀ x ∈ l, x ≤ l.foldl max a := by
  induction l with
  | nil => intro a; simp
  | cons b t ih =>
    intro a
    simp only [List.foldl_cons, List.mem_cons]
    refine ⟨le_trans (le_max_left a b) (ih (max a b)).1, ?_⟩
    rintro x (rfl | hx)
    · exact le_trans (le_max_right a x) (ih (max a x)).1
    · exact (ih (max a b)).2 x hx

theorem foldl_max_mem (l : List ℤ) : ∀ a, l.foldl max a = a ∨ l.foldl max a ∈ l := by
  induction l with
  | nil => intro a; simp
  | cons b t ih =>
    intro a
    simp only [List.foldl_cons, List.mem_cons]
    rcases ih (max a b) with h | h
    · rcases max_choice a b with e | e
      · exact Or.inl (h.trans e)
      · exact Or.inr (Or.inl (h.trans e))
    · exact Or.inr (Or.inr h)

theorem pythonMax_spec (l : List ℤ) (h : l ≠ []) :
    pythonMax l ∈ l ∧ ∀ x ∈ l, x ≤ pythonMax l := by
  unfold pythonMax
  constructor
  · rcases foldl_max_mem l (l.headD 0) with e | e
    · rw [e]
      cases l with
      | nil => exact absurd rfl h
      | cons a t => exact List.mem_cons_self a t
    · exact e
  · exact (foldl_max_le l (l.headD 0)).2

theorem getD_eq_getLast (l : List ℤ) (h : l ≠ []) :
    l.getD (l.length - 1) 0 = l.getLast h := by
  induction l with
  | nil => exact absurd rfl h
  | cons a t ih =>
    cases t with
    | nil => rfl
    | cons b u =>
      have ht : b :: u ≠ [] := by simp
      rw [List.getLast_cons ht, ← ih ht]
      simp only [List.length_cons]
      rfl

theorem pythonMax_uniqueFirst_spec (l : List ℤ) (h : l ≠ []) :
    pythonMax (uniqueFirst l) ∈ l ∧ ∀ x ∈ l, x ≤ pythonMax (uniqueFirst l) := by
  have hu : uniqueFirst l ≠ [] := by
    cases l with
    | nil => exact absurd rfl h
    | cons a t =>
      intro e
      have hm := (mem_uniqueFirst (a :: t) a).mpr (List.mem_cons_self a t)
      rw [e] at hm
      simp at hm
  obtain ⟨hm, hb⟩ := pythonMax_spec (uniqueFirst l) hu
  exact ⟨(mem_uniqueFirst l _).mp hm, fun x hx => hb x ((mem_uniqueFirst l x).mpr hx)⟩

/-! ## Claim C9 — default filter selections -/

/-- A phone-brand table with three distinct years, for the C9
counterexample. -/
def c9B : List BRow :=
  [{ state := "kerala", year := 2022, quarter := 1, phone_brand := "Xiaomi",
     registered_users := 10, phone_count := 5 },
   { state := "kerala", year := 2023, quarter := 1, phone_brand := "Xiaomi",
     registered_users := 11, phone_count := 6 },
   { state := "kerala", year := 2024, quarter := 1, phone_brand := "Xiaomi",
     registered_users := 12, phone_count := 7 }]

/-- A one-row Plotting table for the C9 witness. -/
def c9P : List PRow :=
  [{ state := "Kerala", year := 2023, quarter := 2,
     type_of_transaction := "Recharge & bill payments",
     total_amount := 10, number_of_transactions := 1 }]

/-- A one-row Mapping table for the C9 witness. -/
def c9M : List IRow :=
  [{ state := "Goa", year := 2022, quarter := 3,
     total_amount := 7, number_of_transactions := 2 }]

/-- A two-row District table for the C9 witness. -/
def c9D : List DRow :=
  [{ state := "Goa", year := 2022, quarter := 3, entity_type := "districts",
     entity_name := "north-goa", amount := 7, count := 2 },
   { state := "Goa", year := 2022, quarter := 3, entity_type := "pincodes",
     entity_name := "403001", amount := 3, count := 1 }]

/-- C9 counterexample: on the Phone Brands page with years 2022-2024 the
default year selection is the last two years `[2023, 2024]`, not the
singleton of the maximum year `[2024]` the claim requires on every page. -/
theorem C9_counterexample :
    phoneBrandsDefaultYears c9B = [2023, 2024] ∧
    pythonMax (uniqueFirst (c9B.map (fun r => r.year))) = 2024 ∧
    phoneBrandsDefaultYears c9B ≠ [2024] :=
  ⟨by decide, by decide, by decide⟩

/-- C9 (amended): on the Plotting and Mapping pages the default selection
constrains year to exactly the singleton of the maximum year present and
quarter to all quarters present, and leaves the state dimension
unconstrained (empty default, and the Mapping state filter is skipped for
an empty selection).  On the District page the year and quarter defaults
are the same and the state selectbox defaults to `"All States"`, under
which the state equality filter is skipped; its entity-type dimension,
however, is not unconstrained: the selectbox defaults to the first entity
type present and the equality filter on it is applied unconditionally.
On the Phone Brands page the default year selection is the two most
recent distinct years whenever at least two distinct years are present. -/
theorem C9_defaults_amended :
    (∀ df : List PRow, df ≠ [] →
      plottingDefaultYears df = [pythonMax (uniqueFirst (df.map (fun r => r.year)))] ∧
      pythonMax (uniqueFirst (df.map (fun r => r.year))) ∈ df.map (fun r => r.year) ∧
      (∀ y ∈ df.map (fun r => r.year),
        y ≤ pythonMax (uniqueFirst (df.map (fun r => r.year)))) ∧
      (∀ q, q ∈ plottingDefaultQuarters df ↔ q ∈ df.map (fun r => r.quarter)) ∧
      plottingDefaultStates df = []) ∧
    (∀ df : List IRow, df ≠ [] →
      mappingDefaultYears df = [pythonMax (uniqueFirst (df.map (fun r => r.year)))] ∧
      pythonMax (uniqueFirst (df.map (fun r => r.year))) ∈ df.map (fun r => r.year) ∧
      (∀ y ∈ df.map (fun r => r.year),
        y ≤ pythonMax (uniqueFirst (df.map (fun r => r.year)))) ∧
      (∀ q, q ∈ mappingDefaultQuarters df ↔ q ∈ df.map (fun r => r.quarter)) ∧
      mappingDefaultStates df = [] ∧
      (∀ (ys qs : List ℤ) (r : IRow),
        r ∈ mappingFilter df ys qs [] ↔ r ∈ df ∧ r.year ∈ ys ∧ r.quarter ∈ qs)) ∧
    (∀ df : List DRow, df ≠ [] →
      districtDefaultYears (df.map (fun r => r.year)) =
        [pythonMax (uniqueFirst (df.map (fun r => r.year)))] ∧
      pythonMax (uniqueFirst (df.map (fun r => r.year))) ∈ df.map (fun r => r.year) ∧
      (∀ y ∈ df.map (fun r => r.year),
        y ≤ pythonMax (uniqueFirst (df.map (fun r => r.year)))) ∧
      (∀ q, q ∈ districtDefaultQuarters df ↔ q ∈ df.map (fun r => r.quarter)) ∧
      districtDefaultState df = "All States" ∧
      (∀ (ys qs : List ℤ) (e : Option String) (r : DRow),
        r ∈ districtFilter df ys qs "All States" e ↔
          r ∈ df ∧ r.year ∈ ys ∧ r.quarter ∈ qs ∧ some r.entity_type = e) ∧
      (∃ e0, districtDefaultEntity df = some e0 ∧ e0 ∈ df.map (fun r => r.entity_type)) ∧
      (∀ (ys qs : List ℤ) (s : String) (e : String) (r : DRow),
        r ∈ districtFilter df ys qs s (some e) → r.entity_type = e)) ∧
    (∀ df : List BRow, 2 ≤ (uniqueFirst (df.map (fun r => r.year))).length →
      (phoneBrandsDefaultYears df).length = 2 ∧
      (∀ b ∈ phoneBrandsDefaultYears df, b ∈ df.map (fun r => r.year)) ∧
      (∀ a ∈ df.map (fun r => r.year), a ∉ phoneBrandsDefaultYears df →
        ∀ b ∈ phoneBrandsDefaultYears df, a ≤ b) ∧
      (∀ q, q ∈ phoneBrandsDefaultQuarters df ↔ q ∈ df.map (fun r => r.quarter)) ∧
      phoneBrandsDefaultStates df = []) := by
  refine ⟨?_, ?_, ?_, ?_⟩
  · intro df hdf
    have hne : df.map (fun r => r.year) ≠ [] := by
      cases df with
      | nil => exact absurd rfl hdf
      | cons a t => simp
    obtain ⟨hm, hb⟩ := pythonMax_uniqueFirst_spec _ hne
    exact ⟨rfl, hm, hb, fun q => mem_uniqueFirst _ q, rfl⟩
  · intro df hdf
    have hne : df.map (fun r => r.year) ≠ [] := by
      cases df with
      | nil => exact absurd rfl hdf
      | cons a t => simp
    obtain ⟨hm, hb⟩ := pythonMax_uniqueFirst_spec _ hne
    refine ⟨rfl, hm, hb, fun q => mem_uniqueFirst _ q, rfl, ?_⟩
    intro ys qs r
    simp only [mappingFilter, List.isEmpty_nil, if_true, List.mem_filter,
      decide_eq_true_eq]
  · intro df hdf
    have hne : df.map (fun r => r.year) ≠ [] := by
      cases df with
      | nil => exact absurd rfl hdf
      | cons a t => simp
    have hu : uniqueFirst (df.map (fun r => r.year)) ≠ [] := by
      cases hmap : df.map (fun r => r.year) with
      | nil => exact absurd hmap hne
      | cons a t =>
        intro e
        have hm := (mem_uniqueFirst (a :: t) a).mpr (List.mem_cons_self a t)
        rw [e] at hm
        simp at hm
    obtain ⟨hm, hb⟩ := pythonMax_uniqueFirst_spec _ hne
    refine ⟨?_, hm, hb, fun q => mem_uniqueFirst _ q, rfl, ?_, ?_, ?_⟩
    · rw [districtDefaultYears, if_pos (by
        cases e : uniqueFirst (df.map (fun r => r.year)) with
        | nil => exact absurd e hu
        | cons a t => simp)]
    · intro ys qs e r
      simp only [districtFilter, ne_eq, not_true_eq_false, if_false,
        List.mem_filter, decide_eq_true_eq]
      tauto
    · cases df with
      | nil => exact absurd rfl hdf
      | cons d t => exact ⟨d.entity_type, rfl, by simp⟩
    · intro ys qs s e r hr
      unfold districtFilter at hr
      have h2 := (List.mem_filter.mp hr).2
      simpa using h2
  · intro df h2
    unfold phoneBrandsDefaultYears
    rw [if_pos h2]
    have hlen : (List.insertionSort (· ≤ ·)
        (uniqueFirst (df.map (fun r => r.year)))).length =
        (uniqueFirst (df.map (fun r => r.year))).length :=
      (List.perm_insertionSort _ _).length_eq
    have hsorted : List.Sorted (· ≤ ·)
        (List.insertionSort (· ≤ ·) (uniqueFirst (df.map (fun r => r.year)))) :=
      List.sorted_insertionSort _ _
    refine ⟨?_, ?_, ?_, fun q => mem_uniqueFirst _ q, rfl⟩
    · rw [List.length_drop, hlen]
      omega
    · intro b hbmem
      have hbs := List.mem_of_mem_drop hbmem
      have := (List.perm_insertionSort (· ≤ ·) _).mem_iff.mp hbs
      exact (mem_uniqueFirst _ b).mp this
    · intro a ha hnd b hb
      have has : a ∈ List.insertionSort (· ≤ ·) (uniqueFirst (df.map (fun r => r.year))) :=
        (List.perm_insertionSort (· ≤ ·) _).mem_iff.mpr ((mem_uniqueFirst _ a).mpr ha)
      set s := List.insertionSort (· ≤ ·) (uniqueFirst (df.map (fun r => r.year))) with hs
      have hsp : List.Pairwise (· ≤ ·) (s.take (s.length - 2) ++ s.drop (s.length - 2)) := by
        rw [List.take_append_drop]
        exact hsorted
      have hsplit : s.take (s.length - 2) ++ s.drop (s.length - 2) = s :=
        List.take_append_drop _ s
      have hat : a ∈ s.take (s.length - 2) := by
        have has2 : a ∈ s.take (s.length - 2) ++ s.drop (s.length - 2) := by
          rw [hsplit]
          exact has
        rcases List.mem_append.mp has2 with h | h
        · exact h
        · exact absurd h hnd
      exact (List.pairwise_append.mp hsp).2.2 a hat b hb

/-- C9 witness: the amended theorem applied to concrete non-empty tables
for each of the four pages. -/
theorem C9_witness :
    plottingDefaultYears c9P = [pythonMax (uniqueFirst (c9P.map (fun r => r.year)))] ∧
    mappingDefaultStates c9M = [] ∧
    districtDefaultState c9D = "All States" ∧
    (phoneBrandsDefaultYears c9B).length = 2 :=
  ⟨(C9_defaults_amended.1 c9P (by decide)).1,
   (C9_defaults_amended.2.1 c9M (by decide)).2.2.2.2.1,
   (C9_defaults_amended.2.2.1 c9D (by decide)).2.2.2.2.1,
   (C9_defaults_amended.2.2.2 c9B (by decide)).1⟩

/-! ## Claim C7 — year-over-year growth -/

/-- The section-8 example table: West Bengal, 100 in 2022 and 150 in 2023. -/
def c7Example : List IRow :=
  [{ state := "west-bengal", year := 2022, quarter := 1,
     total_amount := 100, number_of_transactions := 10 },
   { state := "west-bengal", year := 2023, quarter := 1,
     total_amount := 150, number_of_transactions := 12 }]

/-- C7: year-over-year growth is `0` with fewer than two distinct years;
otherwise it is `(latest - previous) / previous * 100` over the per-year
sums ordered by year when the previous year's sum is positive and `0`
otherwise; and on the section-8 example table it is exactly `50`. -/
theorem C7_yoy_growth (rows : List IRow) :
    ((distinctYears rows).length < 2 → yoy_growth rows = 0) ∧
    (2 ≤ (distinctYears rows).length →
      yoy_growth rows =
        (if 0 < yearTotal rows
            ((distinctYears rows).getD ((distinctYears rows).length - 2) 0) then
          (yearTotal rows ((distinctYears rows).getLast?.getD 0) -
            yearTotal rows ((distinctYears rows).getD ((distinctYears rows).length - 2) 0)) /
            yearTotal rows ((distinctYears rows).getD ((distinctYears rows).length - 2) 0) * 100
        else 0)) ∧
    yoy_growth c7Example = 50 := by
  refine ⟨?_, ?_, ?_⟩
  · intro hlt
    unfold yoy_growth
    rw [if_neg (by omega)]
  · intro h2
    have hne : distinctYears rows ≠ [] := by
      intro e
      rw [e] at h2
      simp at h2
    unfold yoy_growth
    rw [if_pos h2, List.getLast?_eq_getLast _ hne, getD_eq_getLast _ hne]
    rfl
  · have hd : distinctYears c7Example = [2022, 2023] := by decide
    have hprev : yearTotal c7Example 2022 = 100 := by
      norm_num [yearTotal, c7Example, List.filter]
    have hlast : yearTotal c7Example 2023 = 150 := by
      norm_num [yearTotal, c7Example, List.filter]
    unfold yoy_growth
    rw [hd]
    have e1 : ([2022, 2023] : List ℤ).getD (([2022, 2023] : List ℤ).length - 1) 0 = 2023 := rfl
    have e2 : ([2022, 2023] : List ℤ).getD (([2022, 2023] : List ℤ).length - 2) 0 = 2022 := rfl
    rw [if_pos (by norm_num), e1, e2, hlast, hprev, if_pos (by norm_num)]
    norm_num

/-- C7 witness: the theorem instantiated at the empty table (no distinct
years, so growth `0`) and restated on the example table. -/
theorem C7_witness : yoy_growth [] = 0 ∧ yoy_growth c7Example = 50 :=
  ⟨(C7_yoy_growth []).1 (by decide), (C7_yoy_growth c7Example).2.2⟩

/-! ## Claim C2 — compound annual growth rate -/

/-- A table whose first year's aggregate is negative, for the C2
counterexample: -100 in 2022, 100 in 2023. -/
def c2Rows : List IRow :=
  [{ state := "kerala", year := 2022, quarter := 1,
     total_amount := -100, number_of_transactions := 1 },
   { state := "kerala", year := 2023, quarter := 1,
     total_amount := 100, number_of_transactions := 1 }]

/-- C2 counterexample: with two distinct years and a strictly negative
first-year aggregate the claim demands `cagr = 0`, but the source has no
positivity guard: on this table the exponent is `1/(2-1) = 1` (where the
real power agrees with the float power exactly) and the code returns
`(100 / -100 - 1) * 100 = -200`, not `0`. -/
theorem C2_counterexample :
    2 ≤ (distinctYears c2Rows).length ∧
    yearTotal c2Rows ((distinctYears c2Rows).getD 0 0) < 0 ∧
    amount_cagr c2Rows = -200 ∧ amount_cagr c2Rows ≠ 0 := by
  have hd : distinctYears c2Rows = [2022, 2023] := by decide
  have h0 : yearTotal c2Rows 2022 = -100 := by
    norm_num [yearTotal, c2Rows, List.filter]
  have h1 : yearTotal c2Rows 2023 = 100 := by
    norm_num [yearTotal, c2Rows, List.filter]
  have hc : amount_cagr c2Rows = -200 := by
    unfold amount_cagr
    rw [hd]
    have e1 : ([2022, 2023] : List ℤ).getD (([2022, 2023] : List ℤ).length - 1) 0 = 2023 := rfl
    have e2 : ([2022, 2023] : List ℤ).getD 0 0 = 2022 := rfl
    rw [if_pos (by norm_num), e1, e2, h1, h0]
    have he : (1 : ℝ) / ((([2022, 2023] : List ℤ).length : ℝ) - 1) = 1 := by norm_num
    rw [he, Real.rpow_one]
    push_cast
    norm_num
  refine ⟨by rw [hd]; norm_num, by rw [hd]; exact h0 ▸ (by norm_num), hc, by rw [hc]; norm_num⟩

/-- C2 (amended): the compound annual growth rate equals
`((last / first) ^ (1 / (n - 1)) - 1) * 100` over the per-year sums of
the `n ≥ 2` distinct years ordered ascending - with no condition on the
sign of the first aggregate - and equals `0` exactly when fewer than two
distinct years are present. -/
theorem C2_cagr_amended (rows : List IRow) :
    ((distinctYears rows).length < 2 → amount_cagr rows = 0) ∧
    (2 ≤ (distinctYears rows).length →
      amount_cagr rows =
        ((((yearTotal rows ((distinctYears rows).getLast?.getD 0) : ℚ) : ℝ) /
            ((yearTotal rows ((distinctYears rows).head?.getD 0) : ℚ) : ℝ)) ^
          ((1 : ℝ) / (((distinctYears rows).length : ℝ) - 1)) - 1) * 100) := by
  constructor
  · intro hlt
    unfold amount_cagr
    rw [if_neg (by omega)]
  · intro h2
    have hne : distinctYears rows ≠ [] := by
      intro e
      rw [e] at h2
      simp at h2
    have hh : (distinctYears rows).getD 0 0 = (distinctYears rows).head?.getD 0 := by
      cases distinctYears rows with
      | nil => rfl
      | cons a t => rfl
    unfold amount_cagr
    rw [if_pos h2, List.getLast?_eq_getLast _ hne, getD_eq_getLast _ hne, ← hh]
    rfl

/-- C2 witness: the amended theorem applied to the empty table (no
distinct years) and to the counterexample table (two distinct years). -/
theorem C2_witness :
    amount_cagr [] = 0 ∧
    amount_cagr c2Rows =
      ((((yearTotal c2Rows ((distinctYears c2Rows).getLast?.getD 0) : ℚ) : ℝ) /
          ((yearTotal c2Rows ((distinctYears c2Rows).head?.getD 0) : ℚ) : ℝ)) ^
        ((1 : ℝ) / (((distinctYears c2Rows).length : ℝ) - 1)) - 1) * 100 :=
  ⟨(C2_cagr_amended []).1 (by decide), (C2_cagr_amended c2Rows).2 (by decide)⟩

/-! ## Claim C3 — empty tables through the KPI pipeline -/

/-- C3: on a frame that has its columns but no rows, the visual-page KPI
pipeline returns the neutral bundle (`total = 0`, `count = 0`, average
`0`, YoY `0`, top state `"N/A"`, CAGR `0`); but on the column-less empty
frame the Data Loader returns after a database error, line 72 of
pages/0_visual.py evaluates `df['state']` and raises `KeyError` - the
pipeline does not survive that loader-empty input. -/
theorem C3_empty_table_kpis :
    visualPipeline { hasSchema := true, rows := [] } =
      Except.ok (VisualKpis.mk 0 0 0 0 "N/A" 0) ∧
    visualPipeline { hasSchema := false, rows := [] } =
      Except.error "KeyError: state" :=
  ⟨rfl, rfl⟩

/-! ## Evaluation helpers for the formatter -/

theorem roundHalfEven_intCast (m : ℤ) : roundHalfEven (m : ℚ) = m := by
  unfold roundHalfEven
  rw [Int.floor_intCast]
  norm_num

theorem qRender_nonneg_int (g : Bool) (p : ℕ) (x : ℚ) (m : ℕ)
    (hx : ¬ x < 0) (hm : |x| * (10 : ℚ) ^ p = (m : ℚ)) :
    qRender g p x =
      (if p = 0 then
        String.mk (if g then group3 (natDigits (m / 10 ^ p)) else natDigits (m / 10 ^ p))
      else
        String.mk (if g then group3 (natDigits (m / 10 ^ p)) else natDigits (m / 10 ^ p)) ++
          "." ++ String.mk (padZeros p (natDigits (m % 10 ^ p)))) := by
  have hr : roundHalfEven (|x| * (10 : ℚ) ^ p) = (m : ℤ) := by
    rw [hm, show ((m : ℕ) : ℚ) = ((m : ℤ) : ℚ) by push_cast; ring]
    exact roundHalfEven_intCast m
  unfold qRender
  rw [hr, if_neg hx, Int.toNat_natCast]
  by_cases hp : p = 0
  · rw [if_pos hp, if_pos hp]
    cases g <;> rfl
  · rw [if_neg hp, if_neg hp]
    cases g <;> rfl

/-! ## Claim C4 — the magnitude bands of the formatter -/

/-- C4 counterexample: `1_500_000 / 1e5 = 15`, so the L band renders
`"15.00L"`, not the claim's `"1.50L"`; and under the default
`use_indian_system=True` flag the `≥ 1e9` band of `format_currency`
divides by `1e7` with suffix `Cr`, not by `1e9` with suffix `B`. -/
theorem C4_counterexample :
    format_number 1500000 = "15.00L" ∧ format_number 1500000 ≠ "1.50L" ∧
    format_currency 1500000 true = "₹15.00L" ∧
    format_currency 2000000000 true = "₹200.00Cr" := by
  have h15 : (1500000 : ℚ) / 100000 = ((15 : ℕ) : ℚ) := by norm_num
  have h200 : (2000000000 : ℚ) / 10000000 = ((200 : ℕ) : ℚ) := by norm_num
  have hq15 : qRender false 2 ((15 : ℕ) : ℚ) = "15.00" := by
    rw [qRender_nonneg_int false 2 _ 1500 (by norm_num) (by norm_num)]
    decide
  have hq200 : qRender false 2 ((200 : ℕ) : ℚ) = "200.00" := by
    rw [qRender_nonneg_int false 2 _ 20000 (by norm_num) (by norm_num)]
    decide
  have hn : format_number 1500000 = "15.00L" := by
    unfold format_number
    rw [if_neg (by norm_num), if_neg (by norm_num), if_pos (by norm_num), h15, hq15]
    rfl
  have hc : format_currency 1500000 true = "₹15.00L" := by
    unfold format_currency
    rw [if_neg (by norm_num), if_neg (by norm_num), if_pos (by norm_num), h15, hq15]
    rfl
  have hb : format_currency 2000000000 true = "₹200.00Cr" := by
    unfold format_currency
    rw [if_pos (by norm_num), if_neg (by decide), h200, hq200]
    rfl
  exact ⟨hn, by rw [hn]; decide, hc, hb⟩

/-- C4 (amended): `format_number` and `format_currency` evaluate the band
table top-down with first match winning (1e9-B, 1e7-Cr, 1e5-L, 1e3-K,
else unscaled for `format_number`; for `format_currency` the 1e9 band
yields value/1e7 with suffix Cr under the default Indian-system flag);
the examples render as `format_number(999) = "999"`,
`format_number(1_500_000) = "15.00L"`, `format_number(15_000_000) =
"1.50Cr"` and `format_currency(1_500_000) = "₹15.00L"`; the page-local
currency variant of pages/0_visual.py has no K band, so the two
implementations disagree at 5000: `"₹5.00K"` against `"₹5,000.00"`. -/
theorem C4_formatter_amended :
    (∀ x : ℚ, x ≥ 1000000000 →
      format_number x = qRender false 2 (x / 1000000000) ++ "B" ∧
      format_currency x true = "₹" ++ qRender false 2 (x / 10000000) ++ "Cr") ∧
    (∀ x : ℚ, x ≥ 10000000 → ¬ x ≥ 1000000000 →
      format_number x = qRender false 2 (x / 10000000) ++ "Cr" ∧
      format_currency x true = "₹" ++ qRender false 2 (x / 10000000) ++ "Cr") ∧
    (∀ x : ℚ, x ≥ 100000 → ¬ x ≥ 10000000 →
      format_number x = qRender false 2 (x / 100000) ++ "L" ∧
      format_currency x true = "₹" ++ qRender false 2 (x / 100000) ++ "L") ∧
    (∀ x : ℚ, x ≥ 1000 → ¬ x ≥ 100000 →
      format_number x = qRender false 2 (x / 1000) ++ "K" ∧
      format_currency x true = "₹" ++ qRender false 2 (x / 1000) ++ "K") ∧
    (∀ x : ℚ, ¬ x ≥ 1000 →
      format_number x = qRender true 0 x ∧
      format_currency x true = "₹" ++ qRender true 2 x) ∧
    format_number 999 = "999" ∧
    format_number 1500000 = "15.00L" ∧
    format_number 15000000 = "1.50Cr" ∧
    format_currency 1500000 true = "₹15.00L" ∧
    format_currency 5000 true = "₹5.00K" ∧
    visualFormatCurrency 5000 = "₹5,000.00" := by
  refine ⟨?_, ?_, ?_, ?_, ?_, ?_, ?_, ?_, ?_, ?_, ?_⟩
  · intro x h
    unfold format_number format_currency
    rw [if_pos h, if_pos h, if_neg (by decide)]
    exact ⟨rfl, rfl⟩
  · intro x h h9
    unfold format_number format_currency
    rw [if_neg h9, if_neg h9, if_pos h, if_pos h]
    exact ⟨rfl, rfl⟩
  · intro x h h7
    have h9 : ¬ x ≥ 1000000000 := fun hh => h7 (le_trans (by norm_num) hh)
    unfold format_number format_currency
    rw [if_neg h9, if_neg h9, if_neg h7, if_neg h7, if_pos h, if_pos h]
    exact ⟨rfl, rfl⟩
  · intro x h h5
    have h7 : ¬ x ≥ 10000000 := fun hh => h5 (le_trans (by norm_num) hh)
    have h9 : ¬ x ≥ 1000000000 := fun hh => h5 (le_trans (by norm_num) hh)
    unfold format_number format_currency
    rw [if_neg h9, if_neg h9, if_neg h7, if_neg h7, if_neg h5, if_neg h5, if_pos h, if_pos h]
    exact ⟨rfl, rfl⟩
  · intro x h3
    have h5 : ¬ x ≥ 100000 := fun hh => h3 (le_trans (by norm_num) hh)
    have h7 : ¬ x ≥ 10000000 := fun hh => h3 (le_trans (by norm_num) hh)
    have h9 : ¬ x ≥ 1000000000 := fun hh => h3 (le_trans (by norm_num) hh)
    unfold format_number format_currency
    rw [if_neg h9, if_neg h9, if_neg h7, if_neg h7, if_neg h5, if_neg h5, if_neg h3, if_neg h3]
    exact ⟨rfl, rfl⟩
  · unfold format_number
    rw [if_neg (by norm_num), if_neg (by norm_num), if_neg (by norm_num),
      if_neg (by norm_num)]
    have h999 : (999 : ℚ) = ((999 : ℕ) : ℚ) := by norm_num
    rw [h999, qRender_nonneg_int true 0 _ 999 (by norm_num) (by norm_num)]
    decide
  · have h15 : (1500000 : ℚ) / 100000 = ((15 : ℕ) : ℚ) := by norm_num
    unfold format_number
    rw [if_neg (by norm_num), if_neg (by norm_num), if_pos (by norm_num), h15,
      qRender_nonneg_int false 2 _ 1500 (by norm_num) (by norm_num)]
    decide
  · have h15m : (15000000 : ℚ) / 10000000 = ((3 : ℕ) : ℚ) / 2 := by norm_num
    unfold format_number
    rw [if_neg (by norm_num), if_pos (by norm_num), h15m,
      qRender_nonneg_int false 2 _ 150 (by norm_num)
        (by rw [abs_of_nonneg (by norm_num : (0:ℚ) ≤ ((3 : ℕ) : ℚ) / 2)]; norm_num)]
    decide
  · have h15 : (1500000 : ℚ) / 100000 = ((15 : ℕ) : ℚ) := by norm_num
    unfold format_currency
    rw [if_neg (by norm_num), if_neg (by norm_num), if_pos (by norm_num), h15,
      qRender_nonneg_int false 2 _ 1500 (by norm_num) (by norm_num)]
    decide
  · have h5k : (5000 : ℚ) / 1000 = ((5 : ℕ) : ℚ) := by norm_num
    unfold format_currency
    rw [if_neg (by norm_num), if_neg (by norm_num), if_neg (by norm_num),
      if_pos (by norm_num), h5k,
      qRender_nonneg_int false 2 _ 500 (by norm_num) (by norm_num)]
    decide
  · have h5 : (5000 : ℚ) = ((5000 : ℕ) : ℚ) := by norm_num
    unfold visualFormatCurrency
    rw [if_neg (by norm_num), if_neg (by norm_num), if_neg (by norm_num), h5,
      qRender_nonneg_int true 2 _ 500000 (by norm_num) (by norm_num)]
    decide

/-- C4 witness: the band conjuncts of the amended theorem instantiated at
2e9 (B band of `format_number`, Cr band of `format_currency`) and at 50
(unscaled band). -/
theorem C4_witness :
    (format_number 2000000000 = qRender false 2 ((2000000000 : ℚ) / 1000000000) ++ "B" ∧
      format_currency 2000000000 true =
        "₹" ++ qRender false 2 ((2000000000 : ℚ) / 10000000) ++ "Cr") ∧
    (format_number 50 = qRender true 0 50 ∧
      format_currency 50 true = "₹" ++ qRender true 2 50) :=
  ⟨C4_formatter_amended.1 2000000000 (by decide),
   C4_formatter_amended.2.2.2.2.1 50 (by decide)⟩

/-! ## Claim C10 — negative inputs fall through every band -/

/-- C10: every strictly negative value falls through all four magnitude
bands of `format_number` and `format_currency` to the final unscaled
branch: `format_number` renders it grouped with 0 decimals and no unit
suffix, and `format_currency` renders the currency sign followed by the
grouped 2-decimal rendering; no B/Cr/L/K scaling is applied. -/
theorem C10_negative_unscaled (x : ℚ) (hx : x < 0) :
    format_number x = qRender true 0 x ∧
    ∀ b : Bool, format_currency x b = "₹" ++ qRender true 2 x := by
  have hband : ∀ c : ℚ, 0 ≤ c → ¬ x ≥ c := fun c hc h =>
    absurd (le_trans hc h) (not_le.mpr hx)
  constructor
  · unfold format_number
    rw [if_neg (hband _ (by norm_num)), if_neg (hband _ (by norm_num)),
      if_neg (hband _ (by norm_num)), if_neg (hband _ (by norm_num))]
  · intro b
    unfold format_currency
    rw [if_neg (hband _ (by norm_num)), if_neg (hband _ (by norm_num)),
      if_neg (hband _ (by norm_num)), if_neg (hband _ (by norm_num))]

/-- C10 witness: the theorem applied at `-5`. -/
theorem C10_witness :
    format_number (-5) = qRender true 0 (-5) ∧
    ∀ b : Bool, format_currency (-5) b = "₹" ++ qRender true 2 (-5) :=
  C10_negative_unscaled (-5) (by decide)
